import Mathlib

/-!
Shallow embedding of `tensorflow_addons/layers/optical_flow.py` (the
CorrelationCost operator wrapper) together with a spec-level model of the
compiled correlation kernel, and proofs of the behavioural claims about it.

Python integers are embedded as `Int`; Python's floor division `//` is
`Int.fdiv` (both round toward negative infinity), with division by zero
raising `ZeroDivisionError` exactly as in Python.  Python exceptions are
embedded as the `Except Err` monad.  Tensor element values are embedded as
rationals.
-/

namespace OpticalFlow

/-- Python exceptions raised by the wrapper code. -/
inductive Err where
  | valueError : String → Err
  | zeroDivisionError : Err
  | indexError : Err
deriving DecidableEq

/-- A concrete 4-entry shape tuple, as used by `compute_output_shape`. -/
structure Shape4 where
  d0 : Int
  d1 : Int
  d2 : Int
  d3 : Int
deriving DecidableEq

/-- `s[idx]` for a 4-entry shape tuple (only indices 0..3 are ever used). -/
def Shape4.getIdx (s : Shape4) : Nat → Int
  | 0 => s.d0
  | 1 => s.d1
  | 2 => s.d2
  | 3 => s.d3
  | _ => 0

/-- The loop `for idx in range(4): if input_shape[0][idx] != input_shape[1][idx]`
of `compute_output_shape`: `true` iff all four axes agree. -/
def Shape4.axesMatch (s t : Shape4) : Bool :=
  (List.range 4).all fun idx => decide (s.getIdx idx = t.getIdx idx)

/-- A concrete 4-dimensional index into a tensor. -/
structure Idx4 where
  i0 : Int
  i1 : Int
  i2 : Int
  i3 : Int
deriving DecidableEq

/-- A dense 4-D tensor: a shape together with its element values. -/
structure Tensor where
  shape : Shape4
  data : Idx4 → Rat

/-- `tf.transpose(t, [0, 2, 3, 1])`: output axis `k` is input axis `[0,2,3,1][k]`,
so `y[b, h, w, c] = x[b, c, h, w]` (channel-first to channel-last). -/
def transpose0231 (t : Tensor) : Tensor :=
  { shape := ⟨t.shape.d0, t.shape.d2, t.shape.d3, t.shape.d1⟩
    data := fun e => t.data ⟨e.i0, e.i3, e.i1, e.i2⟩ }

/-- `tf.transpose(t, [0, 3, 1, 2])`: `y[b, c, h, w] = x[b, h, w, c]`
(channel-last to channel-first). -/
def transpose0312 (t : Tensor) : Tensor :=
  { shape := ⟨t.shape.d0, t.shape.d3, t.shape.d1, t.shape.d2⟩
    data := fun e => t.data ⟨e.i0, e.i2, e.i3, e.i1⟩ }

/-- `[0, 3, 1, 2]` applied to a shape tuple (channel-last to channel-first). -/
def permToChannelFirst (s : Shape4) : Shape4 := ⟨s.d0, s.d3, s.d1, s.d2⟩

/-- `[0, 2, 3, 1]` applied to a shape tuple (channel-first to channel-last). -/
def permToChannelLast (s : Shape4) : Shape4 := ⟨s.d0, s.d2, s.d3, s.d1⟩

/-- The five integer attributes handed to the kernel on every call. -/
structure CorrParams where
  kernel_size : Int
  max_displacement : Int
  stride_1 : Int
  stride_2 : Int
  pad : Int
deriving DecidableEq

/-- The signature of the compiled kernel `addons_correlation_cost`:
two inputs, the five integer attributes, and the `data_format` attribute
string (`"NHWC"` or `"NCHW"`). -/
def OpCall : Type :=
  Tensor → Tensor → CorrParams → String → Except Err Tensor

/-- Python floor division `a // b`: floors toward negative infinity and
raises `ZeroDivisionError` on a zero divisor. -/
def pyFloorDiv (a b : Int) : Except Err Int :=
  if b = 0 then .error .zeroDivisionError else .ok (Int.fdiv a b)

/-- The state of a `CorrelationCost` layer: exactly the six attributes its
`__init__` stores. -/
structure CorrelationCost where
  kernel_size : Int
  max_displacement : Int
  stride_1 : Int
  stride_2 : Int
  pad : Int
  data_format : String
deriving DecidableEq

/-- `CorrelationCost.__init__`: stores the five integers, validates
`data_format` against the two recognized strings, stores it. -/
def CorrelationCost.init (kernel_size max_displacement stride_1 stride_2 pad : Int)
    (data_format : String) : Except Err CorrelationCost :=
  if data_format ≠ "channels_last" ∧ data_format ≠ "channels_first" then
    .error (.valueError ("`data_format` must be either `channels_last` or" ++
      "`channels_first`, instead got " ++ data_format))
  else
    .ok ⟨kernel_size, max_displacement, stride_1, stride_2, pad, data_format⟩

/-- `CorrelationCost.compute_output_shape`.  The source first raises
`ValueError` unless the list has exactly two shapes (here: the non-pair
match arm), then compares all four axes, then computes the output shape
with Python floor divisions, branching on `data_format`. -/
def CorrelationCost.compute_output_shape (self : CorrelationCost)
    (input_shape : List Shape4) : Except Err (List Shape4) :=
  match input_shape with
  | [s0, s1] =>
    if Shape4.axesMatch s0 s1 then do
      let n := s0.getIdx 0
      let r ← pyFloorDiv self.max_displacement self.stride_2
      let bdk ← pyFloorDiv (self.kernel_size - 1) 2
      let bd := self.max_displacement + bdk
      let output_c := (2 * r + 1) ^ 2
      if self.data_format = "channels_first" then do
        let dh ← pyFloorDiv (2 * (self.pad - bd)) self.stride_1
        let dw ← pyFloorDiv (2 * (self.pad - bd)) self.stride_1
        return [⟨n, output_c, s0.getIdx 2 + dh, s0.getIdx 3 + dw⟩]
      else if self.data_format = "channels_last" then do
        let dh ← pyFloorDiv (2 * (self.pad - bd)) self.stride_1
        let dw ← pyFloorDiv (2 * (self.pad - bd)) self.stride_1
        return [⟨n, s0.getIdx 1 + dh, s0.getIdx 2 + dw, output_c⟩]
      else
        .error (.valueError ("`data_format` must be either `channels_last` or" ++
          "`channels_first`"))
    else
      .error (.valueError "Input shapes must match")
  | _ => .error (.valueError "Input must be a list of two shapes")

/-- The dictionary returned by `CorrelationCost.get_config` (its six
operator-specific entries; the Keras base entries are out of scope). -/
structure LayerConfig where
  kernel_size : Int
  max_displacement : Int
  stride_1 : Int
  stride_2 : Int
  pad : Int
  data_format : String
deriving DecidableEq

/-- `CorrelationCost.get_config`, in state-passing form: the method body
only reads the six attributes, so it returns the config dictionary together
with the (unchanged) layer object. -/
def CorrelationCost.get_config (self : CorrelationCost) :
    LayerConfig × CorrelationCost :=
  (⟨self.kernel_size, self.max_displacement, self.stride_1, self.stride_2,
    self.pad, self.data_format⟩, self)

/-- `_correlation_cost`: maps `data_format` to the kernel's format tag
(raising `ValueError` for anything else), invokes the kernel, and for
`channels_last` transposes the kernel's output by `[0, 2, 3, 1]`. -/
def correlation_cost (op_call : OpCall) (input_a input_b : Tensor)
    (p : CorrParams) (data_format : String) : Except Err Tensor := do
  let op_data_format ←
    if data_format = "channels_last" then pure "NHWC"
    else if data_format = "channels_first" then pure "NCHW"
    else Except.error (Err.valueError ("`data_format` must be either `channels_last` or" ++
      "`channels_first`"))
  let ret ← op_call input_a input_b p op_data_format
  if data_format = "channels_last" then
    pure (transpose0231 ret)
  else
    pure ret

/-- `CorrelationCost.call`: reads `inputs[0]` and `inputs[1]` (Python raises
`IndexError` when the list is shorter; extra entries are ignored) and calls
`_correlation_cost` with the six stored attributes. -/
def CorrelationCost.call (self : CorrelationCost) (op_call : OpCall)
    (inputs : List Tensor) : Except Err Tensor :=
  match inputs with
  | input_a :: input_b :: _ =>
      correlation_cost op_call input_a input_b
        ⟨self.kernel_size, self.max_displacement, self.stride_1,
         self.stride_2, self.pad⟩ self.data_format
  | _ => .error .indexError

/-- `CorrelationCost.call` in explicit state-passing form over an arbitrary
process-wide state type `W`: the method body contains no assignment to any
attribute or global, so the translation threads both unchanged. -/
def CorrelationCost.callSt (self : CorrelationCost) (op_call : OpCall)
    (inputs : List Tensor) (W : Type) (w : W) :
    Except Err Tensor × W × CorrelationCost :=
  (self.call op_call inputs, w, self)

/-- Modelled from the spec: the compiled correlation kernel (the
`addons_correlation_cost` shared object is not part of the visible source)
always computes the cost volume in canonical channel-first layout; when it
is invoked with the `"NHWC"` format tag it first permutes its two inputs to
channel-first (`[0, 3, 1, 2]`) and computes the same channel-first result
(spec sections 4.2 and 4.4).  The channel-first numeric core itself is left
abstract as the parameter `core`. -/
def opCallModel (core : Tensor → Tensor → CorrParams → Tensor) : OpCall :=
  fun a b p fmt =>
    if fmt = "NHWC" then .ok (core (transpose0312 a) (transpose0312 b) p)
    else .ok (core a b p)

/-- `r = floor(max_displacement / stride_2)` (spec section 4.1). -/
def dispRadius (p : CorrParams) : Int :=
  Int.fdiv p.max_displacement p.stride_2

/-- `(kernel_size - 1) / 2`, the patch radius (spec section 4.1). -/
def kernelRadius (p : CorrParams) : Int :=
  Int.fdiv (p.kernel_size - 1) 2

/-- `bd = max_displacement + (kernel_size - 1) / 2` (spec section 4.1). -/
def borderSize (p : CorrParams) : Int :=
  p.max_displacement + kernelRadius p

/-- The spec's output height `H' = H + 2 * floor((pad - bd) / stride_1)`
(spec section 4.1, used to bound the backward iteration space). -/
def outExtentSpec (p : CorrParams) (h : Int) : Int :=
  h + 2 * Int.fdiv (p.pad - borderSize p) p.stride_1

/-- Output channel index `(dy + r) * (2r + 1) + (dx + r)` of the
displacement `(dy, dx)` (spec section 4.2). -/
def chanIndex (p : CorrParams) (dy dx : Int) : Int :=
  (dy + dispRadius p) * (2 * dispRadius p + 1) + (dx + dispRadius p)

/-- The integers `lo, lo+1, ..., hi-1`. -/
def intRange (lo hi : Int) : List Int :=
  (List.range (hi - lo).toNat).map fun k => lo + (k : Int)

/-- One contribution event of the backward pass: output position `(i, j)` of
batch `n`, displacement `(dy, dx)`, channel `c`, patch offset `(py, px)`
(spec section 4.3). -/
structure BTuple where
  n : Int
  i : Int
  j : Int
  dy : Int
  dx : Int
  c : Int
  py : Int
  px : Int
deriving DecidableEq

/-- Modelled from the spec: the backward pass enumerates every
`(n, i, j, dy, dx)` tuple exactly as the forward pass does, and for each of
them every `(c, py, px)` inside the kernel window (spec section 4.3).
`shape` is the common shape `(N, C, H, W)` of the two inputs. -/
def backTuples (p : CorrParams) (shape : Shape4) : List BTuple :=
  (intRange 0 shape.d0).flatMap fun n =>
  (intRange 0 (outExtentSpec p shape.d2)).flatMap fun i =>
  (intRange 0 (outExtentSpec p shape.d3)).flatMap fun j =>
  (intRange (-(dispRadius p)) (dispRadius p + 1)).flatMap fun dy =>
  (intRange (-(dispRadius p)) (dispRadius p + 1)).flatMap fun dx =>
  (intRange 0 shape.d1).flatMap fun c =>
  (intRange (-(kernelRadius p)) (kernelRadius p + 1)).flatMap fun py =>
  (intRange (-(kernelRadius p)) (kernelRadius p + 1)).map fun px =>
    ⟨n, i, j, dy, dx, c, py, px⟩

/-- Anchor coordinate of output position `i` in the padded input:
`i * stride_1` shifted by the `bd` centering offset (spec section 4.2). -/
def anchorCoord (p : CorrParams) (i : Int) : Int :=
  i * p.stride_1 + borderSize p

/-- Read a tensor at padded coordinates `(yy, xx)`: positions that fall in
the zero-padding region (outside the original `H × W` extent) read as zero
(spec section 4.2). -/
def padRead (p : CorrParams) (shape : Shape4) (t : Tensor)
    (n c yy xx : Int) : Rat :=
  let row := yy - p.pad
  let col := xx - p.pad
  if 0 ≤ row ∧ row < shape.d2 ∧ 0 ≤ col ∧ col < shape.d3 then
    t.data ⟨n, c, row, col⟩
  else 0

/-- Modelled from the spec: the input-A element targeted by one backward
contribution event, `grad_A[n, c, y + py, x + px]` in padded coordinates;
`none` when the target falls in the zero-padding region, where the
contribution is silently dropped (spec section 4.3). -/
def gradATarget (p : CorrParams) (shape : Shape4) (t : BTuple) : Option Idx4 :=
  let row := anchorCoord p t.i + t.py - p.pad
  let col := anchorCoord p t.j + t.px - p.pad
  if 0 ≤ row ∧ row < shape.d2 ∧ 0 ≤ col ∧ col < shape.d3 then
    some ⟨t.n, t.c, row, col⟩
  else none

/-- Modelled from the spec: the value a contribution event adds into
`grad_A`, namely `g * B[n, c, y + dy*stride_2 + py, x + dx*stride_2 + px]`
with `g = grad_output[n, channel(dy, dx), i, j]` (spec section 4.3). -/
def gradAContrib (p : CorrParams) (shape : Shape4) (b gOut : Tensor)
    (t : BTuple) : Rat :=
  gOut.data ⟨t.n, chanIndex p t.dy t.dx, t.i, t.j⟩ *
    padRead p shape b t.n t.c
      (anchorCoord p t.i + t.dy * p.stride_2 + t.py)
      (anchorCoord p t.j + t.dx * p.stride_2 + t.px)

/-- Modelled from the spec: the input-B element targeted by one backward
contribution event, `grad_B[n, c, y + dy*stride_2 + py, x + dx*stride_2 + px]`
in padded coordinates, dropped in the padding region (spec section 4.3). -/
def gradBTarget (p : CorrParams) (shape : Shape4) (t : BTuple) : Option Idx4 :=
  let row := anchorCoord p t.i + t.dy * p.stride_2 + t.py - p.pad
  let col := anchorCoord p t.j + t.dx * p.stride_2 + t.px - p.pad
  if 0 ≤ row ∧ row < shape.d2 ∧ 0 ≤ col ∧ col < shape.d3 then
    some ⟨t.n, t.c, row, col⟩
  else none

/-- Modelled from the spec: the value a contribution event adds into
`grad_B`, namely `g * A[n, c, y + py, x + px]` (spec section 4.3). -/
def gradBContrib (p : CorrParams) (shape : Shape4) (a gOut : Tensor)
    (t : BTuple) : Rat :=
  gOut.data ⟨t.n, chanIndex p t.dy t.dx, t.i, t.j⟩ *
    padRead p shape a t.n t.c
      (anchorCoord p t.i + t.py)
      (anchorCoord p t.j + t.px)

/-- One scatter-add update: add `v` into position `e` of the accumulator. -/
def scatterAdd (g : Idx4 → Rat) (e : Idx4) (v : Rat) : Idx4 → Rat :=
  fun x => if x = e then g x + v else g x

/-- Run the backward accumulation loop: process the contribution events in
order, scatter-adding each event's value into its target (events whose
target is `none` fall in the padding and are dropped). -/
def accumulate (target : BTuple → Option Idx4) (contrib : BTuple → Rat) :
    List BTuple → (Idx4 → Rat) → (Idx4 → Rat)
  | [], g => g
  | t :: ts, g =>
      accumulate target contrib ts
        (match target t with
         | some e => scatterAdd g e (contrib t)
         | none => g)

/-- Modelled from the spec: the backward pass of the compiled kernel
(`addons_correlation_cost_grad` is not part of the visible source).  Starting
from all-zero accumulators of A's and B's shape, it scatter-adds every
contribution event of `backTuples` into `grad_A` and `grad_B`
(spec section 4.3). -/
def backwardPair (a b gOut : Tensor) (p : CorrParams) : Tensor × Tensor :=
  (⟨a.shape, accumulate (gradATarget p a.shape) (gradAContrib p a.shape b gOut)
      (backTuples p a.shape) (fun _ => 0)⟩,
   ⟨b.shape, accumulate (gradBTarget p a.shape) (gradBContrib p a.shape a gOut)
      (backTuples p a.shape) (fun _ => 0)⟩)

/-- `_correlation_cost_grad`: unpacks the kernel's gradient result
(`grads[0]`, `grads[1]`) and returns the two gradients as a list in that
order. -/
def correlation_cost_grad (a b gOut : Tensor) (p : CorrParams) : List Tensor :=
  let grads := backwardPair a b gOut p
  [grads.1, grads.2]

/-- `true` iff the computation returned a value rather than raising. -/
def okB {α : Type} : Except Err α → Bool
  | .ok _ => true
  | .error _ => false

/-- The closed-form output-shape formula exactly as the claim words it for
channel-first layout: `C' = (2r+1)^2` with `r = floor(md / stride_2)`,
`bd = md + floor((kernel_size - 1) / 2)`, and
`H' = H + 2 * floor((pad - bd) / stride_1)` (`W'` analogous); stated from
the spec's words for comparison with `compute_output_shape`. -/
def claimOutputShapeCF (k md s1 s2 p : Int) (s : Shape4) : Shape4 :=
  ⟨s.d0, (2 * Int.fdiv md s2 + 1) ^ 2,
   s.d2 + 2 * Int.fdiv (p - (md + Int.fdiv (k - 1) 2)) s1,
   s.d3 + 2 * Int.fdiv (p - (md + Int.fdiv (k - 1) 2)) s1⟩

/-- A concrete `1 × 1 × 1 × 1` all-zero tensor (used in witnesses). -/
def tZero : Tensor := ⟨⟨1, 1, 1, 1⟩, fun _ => 0⟩

/-- A concrete kernel stub returning an all-zero tensor (used in witnesses). -/
def opNull : OpCall := fun _ _ _ _ => .ok ⟨⟨0, 0, 0, 0⟩, fun _ => 0⟩

/-- A concrete kernel stub returning a recognizable tensor, so that a result
equal to its output proves the kernel was invoked (used in witnesses). -/
def opProbe : OpCall := fun _ _ _ _ => .ok ⟨⟨7, 7, 7, 7⟩, fun _ => 5⟩

theorem axesMatch_iff (s t : Shape4) : Shape4.axesMatch s t = true ↔ s = t := by
  cases s with | mk a0 a1 a2 a3 =>
  cases t with | mk b0 b1 b2 b3 =>
  simp [Shape4.axesMatch, show List.range 4 = [0, 1, 2, 3] from rfl,
    Shape4.getIdx, Shape4.mk.injEq]

theorem axesMatch_self (s : Shape4) : Shape4.axesMatch s s = true :=
  (axesMatch_iff s s).mpr rfl

theorem cos_eval_cf (k md s1 s2 p : Int) (s : Shape4)
    (h1 : s1 ≠ 0) (h2 : s2 ≠ 0) :
    CorrelationCost.compute_output_shape ⟨k, md, s1, s2, p, "channels_first"⟩ [s, s]
      = .ok [⟨s.d0, (2 * Int.fdiv md s2 + 1) ^ 2,
             s.d2 + Int.fdiv (2 * (p - (md + Int.fdiv (k - 1) 2))) s1,
             s.d3 + Int.fdiv (2 * (p - (md + Int.fdiv (k - 1) 2))) s1⟩] := by
  simp [CorrelationCost.compute_output_shape, axesMatch_self, pyFloorDiv,
    h1, h2, Shape4.getIdx, Bind.bind, Except.bind, Pure.pure, Except.pure]

theorem cos_eval_cl (k md s1 s2 p : Int) (s : Shape4)
    (h1 : s1 ≠ 0) (h2 : s2 ≠ 0) :
    CorrelationCost.compute_output_shape ⟨k, md, s1, s2, p, "channels_last"⟩ [s, s]
      = .ok [⟨s.d0, s.d1 + Int.fdiv (2 * (p - (md + Int.fdiv (k - 1) 2))) s1,
             s.d2 + Int.fdiv (2 * (p - (md + Int.fdiv (k - 1) 2))) s1,
             (2 * Int.fdiv md s2 + 1) ^ 2⟩] := by
  simp [CorrelationCost.compute_output_shape, axesMatch_self, pyFloorDiv,
    h1, h2, Shape4.getIdx, Bind.bind, Except.bind, Pure.pure, Except.pure]

/-- C1 counterexample: at `kernel_size = 1`, `max_displacement = 0`,
`stride_1 = 2`, `stride_2 = 1`, `pad = 1` on a `(1, 1, 4, 4)` input pair,
`compute_output_shape` returns spatial extents `5 × 5`
(it computes `H + (2*(pad - bd)) // stride_1`), while the claim's formula
`H + 2*floor((pad - bd) / stride_1)` gives `4 × 4`. -/
theorem output_shape_claim_formula_counterexample :
    CorrelationCost.compute_output_shape ⟨1, 0, 2, 1, 1, "channels_first"⟩
        [⟨1, 1, 4, 4⟩, ⟨1, 1, 4, 4⟩] = .ok [⟨1, 1, 5, 5⟩]
    ∧ claimOutputShapeCF 1 0 2 1 1 ⟨1, 1, 4, 4⟩ = ⟨1, 1, 4, 4⟩
    ∧ (⟨1, 1, 5, 5⟩ : Shape4) ≠ ⟨1, 1, 4, 4⟩ :=
  ⟨rfl, rfl, by decide⟩

/-- C1 (amended): for every identically shaped input pair and every
parameter set with nonzero strides, `compute_output_shape` returns exactly
the closed form `C' = (2r+1)^2` with `r = floor(md / stride_2)`,
`bd = md + floor((kernel_size-1)/2)`, and
`H' = H + floor(2*(pad - bd) / stride_1)` (the doubling happens inside the
floor), `W'` analogous, batch axis unchanged — for both data formats. -/
theorem compute_output_shape_closed_form (k md s1 s2 p : Int) (s : Shape4)
    (h1 : s1 ≠ 0) (h2 : s2 ≠ 0) :
    CorrelationCost.compute_output_shape ⟨k, md, s1, s2, p, "channels_first"⟩ [s, s]
      = .ok [⟨s.d0, (2 * Int.fdiv md s2 + 1) ^ 2,
             s.d2 + Int.fdiv (2 * (p - (md + Int.fdiv (k - 1) 2))) s1,
             s.d3 + Int.fdiv (2 * (p - (md + Int.fdiv (k - 1) 2))) s1⟩]
    ∧ CorrelationCost.compute_output_shape ⟨k, md, s1, s2, p, "channels_last"⟩ [s, s]
      = .ok [⟨s.d0, s.d1 + Int.fdiv (2 * (p - (md + Int.fdiv (k - 1) 2))) s1,
             s.d2 + Int.fdiv (2 * (p - (md + Int.fdiv (k - 1) 2))) s1,
             (2 * Int.fdiv md s2 + 1) ^ 2⟩] :=
  ⟨cos_eval_cf k md s1 s2 p s h1 h2, cos_eval_cl k md s1 s2 p s h1 h2⟩

theorem compute_output_shape_closed_form_witness :
    ((2 : Int) ≠ 0 ∧ (2 : Int) ≠ 0)
    ∧ (CorrelationCost.compute_output_shape ⟨3, 2, 2, 2, 1, "channels_first"⟩
          [⟨2, 3, 9, 9⟩, ⟨2, 3, 9, 9⟩] = .ok [⟨2, 9, 7, 7⟩]
       ∧ CorrelationCost.compute_output_shape ⟨3, 2, 2, 2, 1, "channels_last"⟩
          [⟨2, 3, 9, 9⟩, ⟨2, 3, 9, 9⟩] = .ok [⟨2, 1, 7, 9⟩]) :=
  ⟨⟨by decide, by decide⟩,
   compute_output_shape_closed_form 3 2 2 2 1 ⟨2, 3, 9, 9⟩ (by decide) (by decide)⟩

/-- C3 counterexample: `compute_output_shape` returns a shape — it raises no
`InvalidGeometry` error — for an even `kernel_size` (2), for a parameter set
whose output extents are negative (`H' = W' = -6`), and for a negative
`stride_1`. -/
theorem no_geometry_validation_counterexample :
    CorrelationCost.compute_output_shape ⟨2, 0, 1, 1, 0, "channels_first"⟩
        [⟨1, 1, 4, 4⟩, ⟨1, 1, 4, 4⟩] = .ok [⟨1, 1, 4, 4⟩]
    ∧ CorrelationCost.compute_output_shape ⟨1, 5, 1, 1, 0, "channels_first"⟩
        [⟨1, 1, 4, 4⟩, ⟨1, 1, 4, 4⟩] = .ok [⟨1, 121, -6, -6⟩]
    ∧ CorrelationCost.compute_output_shape ⟨1, 0, -1, 1, 0, "channels_first"⟩
        [⟨1, 1, 4, 4⟩, ⟨1, 1, 4, 4⟩] = .ok [⟨1, 1, 4, 4⟩] :=
  ⟨rfl, rfl, rfl⟩

/-- C3 (amended): shape inference performs no geometry validation.  For
every parameter set with nonzero strides (a zero stride fails only with
Python's `ZeroDivisionError`, not an `InvalidGeometry` error) and every
matching input pair, `compute_output_shape` returns a shape under both
recognized data formats — even when `kernel_size` is even or non-positive,
a stride is negative, or the computed `H'`/`W'` is non-positive. -/
theorem compute_output_shape_never_invalid_geometry (k md s1 s2 p : Int)
    (s : Shape4) (h1 : s1 ≠ 0) (h2 : s2 ≠ 0) :
    okB (CorrelationCost.compute_output_shape
        ⟨k, md, s1, s2, p, "channels_first"⟩ [s, s]) = true
    ∧ okB (CorrelationCost.compute_output_shape
        ⟨k, md, s1, s2, p, "channels_last"⟩ [s, s]) = true := by
  rw [cos_eval_cf k md s1 s2 p s h1 h2, cos_eval_cl k md s1 s2 p s h1 h2]
  exact ⟨rfl, rfl⟩

theorem compute_output_shape_never_invalid_geometry_witness :
    ((1 : Int) ≠ 0 ∧ (1 : Int) ≠ 0)
    ∧ (okB (CorrelationCost.compute_output_shape
          ⟨2, 5, 1, 1, 0, "channels_first"⟩ [⟨1, 1, 4, 4⟩, ⟨1, 1, 4, 4⟩]) = true
       ∧ okB (CorrelationCost.compute_output_shape
          ⟨2, 5, 1, 1, 0, "channels_last"⟩ [⟨1, 1, 4, 4⟩, ⟨1, 1, 4, 4⟩]) = true) :=
  ⟨⟨by decide, by decide⟩,
   compute_output_shape_never_invalid_geometry 2 5 1 1 0 ⟨1, 1, 4, 4⟩
     (by decide) (by decide)⟩

/-- C4 counterexample: invoked with a three-element input list (arity ≠ 2),
`call` does not fail with any error: it silently computes on the first two
inputs and returns the kernel's output. -/
theorem call_three_inputs_counterexample :
    CorrelationCost.call ⟨1, 1, 1, 1, 1, "channels_first"⟩ opProbe
      [tZero, tZero, tZero] = .ok ⟨⟨7, 7, 7, 7⟩, fun _ => 5⟩ := rfl

/-- C4 (amended): shape inference (`compute_output_shape`) fails with the
arity `ValueError` for every list whose length is not 2 and with the
mismatch `ValueError` for every pair of shapes differing in some axis
(these are the `ShapeMismatch` kinds); `call` fails with `IndexError` when
given fewer than two inputs, but with more than two inputs it silently
proceeds, handing the first two inputs to the kernel wrapper. -/
theorem shape_arity_validation (self : CorrelationCost) (op_call : OpCall)
    (input_shape : List Shape4) (s0 s1 : Shape4) (a b : Tensor)
    (rest : List Tensor) (harity : input_shape.length ≠ 2) (hmm : s0 ≠ s1) :
    self.compute_output_shape input_shape
      = .error (.valueError "Input must be a list of two shapes")
    ∧ self.compute_output_shape [s0, s1]
      = .error (.valueError "Input shapes must match")
    ∧ self.call op_call [] = .error .indexError
    ∧ (∀ t : Tensor, self.call op_call [t] = .error .indexError)
    ∧ self.call op_call (a :: b :: rest)
      = correlation_cost op_call a b
          ⟨self.kernel_size, self.max_displacement, self.stride_1,
           self.stride_2, self.pad⟩ self.data_format := by
  refine ⟨?_, ?_, rfl, fun t => rfl, rfl⟩
  · rcases input_shape with _ | ⟨x, _ | ⟨y, _ | ⟨z, r⟩⟩⟩
    · rfl
    · rfl
    · simp at harity
    · rfl
  · have hax : Shape4.axesMatch s0 s1 = false := by
      rw [← Bool.not_eq_true, axesMatch_iff]
      exact hmm
    simp [CorrelationCost.compute_output_shape, hax]

theorem shape_arity_validation_witness :
    (([(⟨1, 1, 1, 1⟩ : Shape4)].length ≠ 2)
      ∧ (⟨1, 1, 1, 1⟩ : Shape4) ≠ ⟨2, 1, 1, 1⟩)
    ∧ (CorrelationCost.compute_output_shape ⟨3, 1, 1, 1, 1, "channels_last"⟩
          [⟨1, 1, 1, 1⟩]
        = .error (.valueError "Input must be a list of two shapes")
      ∧ CorrelationCost.compute_output_shape ⟨3, 1, 1, 1, 1, "channels_last"⟩
          [⟨1, 1, 1, 1⟩, ⟨2, 1, 1, 1⟩]
        = .error (.valueError "Input shapes must match")
      ∧ CorrelationCost.call ⟨3, 1, 1, 1, 1, "channels_last"⟩ opNull []
        = .error .indexError
      ∧ (∀ t : Tensor,
          CorrelationCost.call ⟨3, 1, 1, 1, 1, "channels_last"⟩ opNull [t]
            = .error .indexError)
      ∧ CorrelationCost.call ⟨3, 1, 1, 1, 1, "channels_last"⟩ opNull
          (tZero :: tZero :: [])
        = correlation_cost opNull tZero tZero ⟨3, 1, 1, 1, 1⟩ "channels_last") :=
  ⟨⟨by decide, by decide⟩,
   shape_arity_validation ⟨3, 1, 1, 1, 1, "channels_last"⟩ opNull
     [⟨1, 1, 1, 1⟩] ⟨1, 1, 1, 1⟩ ⟨2, 1, 1, 1⟩ tZero tZero []
     (by decide) (by decide)⟩

/-- C5: for every `data_format` other than the two recognized values, the
forward wrapper `_correlation_cost` fails with the layout `ValueError`
(the `InvalidLayout` kind) and its result is the same for every kernel —
the numeric kernel is never invoked — and the constructor `__init__` fails
with its layout `ValueError` likewise. -/
theorem invalid_layout_fails_fast (op op2 : OpCall) (a b : Tensor)
    (p : CorrParams) (df : String) (ks md s1 s2 pd : Int)
    (h1 : df ≠ "channels_last") (h2 : df ≠ "channels_first") :
    correlation_cost op a b p df
      = .error (.valueError ("`data_format` must be either `channels_last` or" ++
          "`channels_first`"))
    ∧ correlation_cost op a b p df = correlation_cost op2 a b p df
    ∧ CorrelationCost.init ks md s1 s2 pd df
      = .error (.valueError ("`data_format` must be either `channels_last` or" ++
          "`channels_first`, instead got " ++ df)) := by
  have herr : ∀ o : OpCall, correlation_cost o a b p df
      = .error (.valueError ("`data_format` must be either `channels_last` or" ++
          "`channels_first`")) := by
    intro o
    simp [correlation_cost, h1, h2, Bind.bind, Except.bind]
  refine ⟨herr op, (herr op).trans (herr op2).symm, ?_⟩
  simp [CorrelationCost.init, h1, h2]

theorem invalid_layout_fails_fast_witness :
    (("NCHW" : String) ≠ "channels_last" ∧ ("NCHW" : String) ≠ "channels_first")
    ∧ (correlation_cost opNull tZero tZero ⟨1, 1, 1, 1, 1⟩ "NCHW"
        = .error (.valueError ("`data_format` must be either `channels_last` or" ++
            "`channels_first`"))
      ∧ correlation_cost opNull tZero tZero ⟨1, 1, 1, 1, 1⟩ "NCHW"
        = correlation_cost opProbe tZero tZero ⟨1, 1, 1, 1, 1⟩ "NCHW"
      ∧ CorrelationCost.init 1 1 1 1 1 "NCHW"
        = .error (.valueError ("`data_format` must be either `channels_last` or" ++
            "`channels_first`, instead got " ++ "NCHW"))) :=
  ⟨⟨by decide, by decide⟩,
   invalid_layout_fails_fast opNull opProbe tZero tZero ⟨1, 1, 1, 1, 1⟩
     "NCHW" 1 1 1 1 1 (by decide) (by decide)⟩

/-- C6: with the spec-modelled kernel (which always computes in canonical
channel-first layout), a `channels_last` invocation of `_correlation_cost`
returns exactly the `[0, 2, 3, 1]` permutation of the core's channel-first
output — the only layout adaptation is this boundary permutation — and a
`channels_first` invocation returns the core's output with no permutation. -/
theorem layout_boundary_transpose (core : Tensor → Tensor → CorrParams → Tensor)
    (a b : Tensor) (p : CorrParams) :
    correlation_cost (opCallModel core) a b p "channels_last"
      = .ok (transpose0231 (core (transpose0312 a) (transpose0312 b) p))
    ∧ correlation_cost (opCallModel core) a b p "channels_first"
      = .ok (core a b p) :=
  ⟨rfl, rfl⟩

/-- C7: the backward pass returns exactly two gradient tensors, the first
of A's shape and the second of B's shape, in that order (kernel gradients
modelled from the spec, list assembly from `_correlation_cost_grad`). -/
theorem backward_returns_two_grads (a b gOut : Tensor) (p : CorrParams) :
    (correlation_cost_grad a b gOut p).length = 2
    ∧ (correlation_cost_grad a b gOut p).map Tensor.shape = [a.shape, b.shape] :=
  ⟨rfl, rfl⟩

/-- C8: `call` in explicit state-passing form over an arbitrary ambient
state: its tensor result is independent of the ambient state (two runs from
different states agree), the ambient state is returned unchanged, and the
layer object is returned unchanged — the operator reads its parameters from
the per-call arguments and mutates nothing. -/
theorem call_stateless_deterministic (self : CorrelationCost)
    (op_call : OpCall) (inputs : List Tensor) (W : Type) (w w2 : W) :
    (self.callSt op_call inputs W w).1 = (self.callSt op_call inputs W w2).1
    ∧ (self.callSt op_call inputs W w).2.1 = w
    ∧ (self.callSt op_call inputs W w).2.2 = self :=
  ⟨rfl, rfl, rfl⟩

/-- C9: for every layer successfully constructed by `__init__`,
re-constructing a layer from the six operator entries of its `get_config`
dictionary succeeds and yields a layer with identical six attributes, and
`get_config` returns the layer object unchanged. -/
theorem get_config_roundtrip (ks md s1 s2 pd : Int) (df : String)
    (L : CorrelationCost)
    (h : CorrelationCost.init ks md s1 s2 pd df = .ok L) :
    CorrelationCost.init L.get_config.1.kernel_size
      L.get_config.1.max_displacement L.get_config.1.stride_1
      L.get_config.1.stride_2 L.get_config.1.pad
      L.get_config.1.data_format = .ok L
    ∧ L.get_config.2 = L := by
  rw [CorrelationCost.init] at h
  by_cases hc : df ≠ "channels_last" ∧ df ≠ "channels_first"
  · rw [if_pos hc] at h
    exact absurd h (by simp)
  · rw [if_neg hc] at h
    injection h with hL
    subst hL
    exact ⟨by simp [CorrelationCost.get_config, CorrelationCost.init, hc], rfl⟩

theorem get_config_roundtrip_witness :
    (CorrelationCost.init 1 2 1 1 0 "channels_last"
      = .ok ⟨1, 2, 1, 1, 0, "channels_last"⟩)
    ∧ (CorrelationCost.init 1 2 1 1 0 "channels_last"
        = .ok ⟨1, 2, 1, 1, 0, "channels_last"⟩
      ∧ (⟨1, 2, 1, 1, 0, "channels_last"⟩ : CorrelationCost).get_config.2
        = ⟨1, 2, 1, 1, 0, "channels_last"⟩) :=
  ⟨rfl, get_config_roundtrip 1 2 1 1 0 "channels_last"
    ⟨1, 2, 1, 1, 0, "channels_last"⟩ rfl⟩

/-- C10: for every input shape list and parameter set, shape inference
under `channels_last` equals the `[0, 2, 3, 1]` permutation of the
`channels_first` result computed on the `[0, 3, 1, 2]`-permuted input
shapes — the two `data_format` branches of `compute_output_shape` agree
with the boundary transpose the forward wrapper applies. -/
theorem output_shape_layout_consistency (k md s1 s2 p : Int)
    (shapes : List Shape4) :
    CorrelationCost.compute_output_shape ⟨k, md, s1, s2, p, "channels_last"⟩
        shapes
      = Except.map (List.map permToChannelLast)
          (CorrelationCost.compute_output_shape
            ⟨k, md, s1, s2, p, "channels_first"⟩
            (shapes.map permToChannelFirst)) := by
  rcases shapes with _ | ⟨s0, _ | ⟨s1sh, _ | ⟨s2sh, rest⟩⟩⟩
  · rfl
  · rfl
  · by_cases hm : s0 = s1sh
    · subst hm
      by_cases hz2 : s2 = 0
      · simp [CorrelationCost.compute_output_shape, axesMatch_self, pyFloorDiv,
          hz2, Bind.bind, Except.bind, Except.map]
      · by_cases hz1 : s1 = 0
        · simp [CorrelationCost.compute_output_shape, axesMatch_self, pyFloorDiv,
            hz1, hz2, Bind.bind, Except.bind, Except.map, Shape4.getIdx,
            permToChannelFirst, permToChannelLast, Pure.pure, Except.pure]
        · simp [CorrelationCost.compute_output_shape, axesMatch_self, pyFloorDiv,
            hz1, hz2, Bind.bind, Except.bind, Except.map, Shape4.getIdx,
            permToChannelFirst, permToChannelLast, Pure.pure, Except.pure]
    · have hax : Shape4.axesMatch s0 s1sh = false := by
        rw [← Bool.not_eq_true, axesMatch_iff]
        exact hm
      have hmp : permToChannelFirst s0 ≠ permToChannelFirst s1sh := by
        intro he
        apply hm
        cases s0
        cases s1sh
        simp only [permToChannelFirst, Shape4.mk.injEq] at he ⊢
        exact ⟨he.1, he.2.2.1, he.2.2.2, he.2.1⟩
      have haxp : Shape4.axesMatch (permToChannelFirst s0)
          (permToChannelFirst s1sh) = false := by
        rw [← Bool.not_eq_true, axesMatch_iff]
        exact hmp
      simp [CorrelationCost.compute_output_shape, hax, haxp, Except.map]
  · rfl

theorem accumulate_apply (target : BTuple → Option Idx4)
    (contrib : BTuple → Rat) (l : List BTuple) (g : Idx4 → Rat) (e : Idx4) :
    accumulate target contrib l g e
      = g e + ((l.filter fun t => decide (target t = some e)).map contrib).sum := by
  induction l generalizing g with
  | nil => simp [accumulate]
  | cons t ts ih =>
    rw [accumulate]
    cases ht : target t with
    | none =>
      rw [ih]
      simp [List.filter_cons, ht]
    | some e2 =>
      rw [ih]
      by_cases he : e2 = e
      · subst he
        simp [List.filter_cons, ht, scatterAdd]
        ring
      · have hne : ¬ e = e2 := fun hx => he hx.symm
        simp [List.filter_cons, ht, scatterAdd, he, hne]

/-- C2: the backward pass is a scatter-add, not a scatter-write.  Whenever
two distinct `(i, j, dy, dx)` contribution tuples of the backward
enumeration target the same underlying input element, the gradient output
at that element equals the sum of all individual contributions targeting
it, for the gradient w.r.t. A and for the gradient w.r.t. B alike. -/
theorem backward_scatter_add (a b gOut : Tensor) (p : CorrParams) (e : Idx4)
    (t1 t2 : BTuple)
    (h1 : t1 ∈ backTuples p a.shape) (h2 : t2 ∈ backTuples p a.shape)
    (hne : (t1.i, t1.j, t1.dy, t1.dx) ≠ (t2.i, t2.j, t2.dy, t2.dx)) :
    ((gradATarget p a.shape t1 = some e) → (gradATarget p a.shape t2 = some e) →
      (backwardPair a b gOut p).1.data e
        = (((backTuples p a.shape).filter fun t =>
              decide (gradATarget p a.shape t = some e)).map
            (gradAContrib p a.shape b gOut)).sum)
    ∧ ((gradBTarget p a.shape t1 = some e) → (gradBTarget p a.shape t2 = some e) →
      (backwardPair a b gOut p).2.data e
        = (((backTuples p a.shape).filter fun t =>
              decide (gradBTarget p a.shape t = some e)).map
            (gradBContrib p a.shape a gOut)).sum) := by
  constructor
  · intro _ _
    have := accumulate_apply (gradATarget p a.shape)
      (gradAContrib p a.shape b gOut) (backTuples p a.shape) (fun _ => 0) e
    simpa [backwardPair] using this
  · intro _ _
    have := accumulate_apply (gradBTarget p a.shape)
      (gradBContrib p a.shape a gOut) (backTuples p a.shape) (fun _ => 0) e
    simpa [backwardPair] using this

theorem backward_scatter_add_witness :
    ((⟨0, 0, 0, 0, 0, 0, 1, 1⟩ : BTuple) ∈ backTuples ⟨3, 0, 1, 1, 1⟩ ⟨1, 1, 2, 2⟩
      ∧ (⟨0, 1, 1, 0, 0, 0, 0, 0⟩ : BTuple) ∈ backTuples ⟨3, 0, 1, 1, 1⟩ ⟨1, 1, 2, 2⟩
      ∧ ((0 : Int), (0 : Int), (0 : Int), (0 : Int)) ≠ ((1 : Int), 1, 0, 0)
      ∧ gradATarget ⟨3, 0, 1, 1, 1⟩ ⟨1, 1, 2, 2⟩ ⟨0, 0, 0, 0, 0, 0, 1, 1⟩
          = some ⟨0, 0, 1, 1⟩
      ∧ gradATarget ⟨3, 0, 1, 1, 1⟩ ⟨1, 1, 2, 2⟩ ⟨0, 1, 1, 0, 0, 0, 0, 0⟩
          = some ⟨0, 0, 1, 1⟩)
    ∧ (backwardPair ⟨⟨1, 1, 2, 2⟩, fun _ => 1⟩ ⟨⟨1, 1, 2, 2⟩, fun _ => 1⟩
          ⟨⟨1, 1, 2, 2⟩, fun _ => 1⟩ ⟨3, 0, 1, 1, 1⟩).1.data ⟨0, 0, 1, 1⟩
        = (((backTuples ⟨3, 0, 1, 1, 1⟩ ⟨1, 1, 2, 2⟩).filter fun t =>
              decide (gradATarget ⟨3, 0, 1, 1, 1⟩ ⟨1, 1, 2, 2⟩ t
                = some ⟨0, 0, 1, 1⟩)).map
            (gradAContrib ⟨3, 0, 1, 1, 1⟩ ⟨1, 1, 2, 2⟩
              ⟨⟨1, 1, 2, 2⟩, fun _ => 1⟩ ⟨⟨1, 1, 2, 2⟩, fun _ => 1⟩)).sum :=
  ⟨⟨by decide, by decide, by decide, by decide, by decide⟩,
   (backward_scatter_add ⟨⟨1, 1, 2, 2⟩, fun _ => 1⟩ ⟨⟨1, 1, 2, 2⟩, fun _ => 1⟩
     ⟨⟨1, 1, 2, 2⟩, fun _ => 1⟩ ⟨3, 0, 1, 1, 1⟩ ⟨0, 0, 1, 1⟩
     ⟨0, 0, 0, 0, 0, 0, 1, 1⟩ ⟨0, 1, 1, 0, 0, 0, 0, 0⟩
     (by decide) (by decide) (by decide)).1 (by decide) (by decide)⟩

end OpticalFlow
